import Mathlib

/-!
Verification of the mlx-audio wrapper repository (sergenes/mlx-audio) against
its natural-language specification.

The repository ships two Python source files, `mlx_audio/server.py` and
`mlx_audio/tts/generate.py`.  The audio-playback engine itself
(`mlx_audio/tts/audio_player.py`, class `AudioPlayer`) is referenced by both
files but its source is not part of this repository snapshot; where a claim is
decided by the engine, the engine is modelled from the specification (those
definitions carry a `Modelled from the spec:` doc comment).  Everything else
is a direct shallow embedding of the Python code.

Audio samples are modelled as integers (`Int`): every property at stake is
about ordering, concatenation and counting of samples, never about sample
arithmetic, so the carrier type is irrelevant; `Int` keeps everything
decidable.  The `/play` endpoint's down-mix arithmetic uses `ℚ` (exact
rational mean) instead of IEEE floats.
-/

namespace MlxAudio

/-! ## The playback engine, modelled from the spec -/

/-- Modelled from the spec: a `SampleChunk` (spec §3) — an immutable unit of
audio data: samples, a sample rate in Hz, and a channel count. -/
structure Chunk where
  samples : List Int
  sampleRate : Nat
  channels : Nat
deriving DecidableEq, Repr

/-- Modelled from the spec: the engine errors of spec §7 that `queueAudio`
can surface synchronously. -/
inductive EngineError where
  | invalidFormat
  | deviceUnavailable
deriving DecidableEq, Repr

/-- Modelled from the spec: `PlaybackState` (spec §3). `Stopped` is a
momentary state during forced shutdown; the model's `stop` returns directly
to `idle`, as the spec says the player does after `stop` completes. -/
inductive PlaybackStatus where
  | idle
  | playing
  | draining
deriving DecidableEq, Repr

/-- Modelled from the spec: the state owned by an `AudioPlayer` instance
(spec §2–§3): the session format fixed at construction
(`AudioPlayer(sampleRate, channels)`), the FIFO `PlaybackQueue` of chunks,
the stream of enqueued samples already written to the device (`delivered` —
silence padding emitted during starvation is not part of this stream and is
counted separately in `paddedFrames`), the running total of enqueued samples,
the playback status, and the device-session handle. -/
structure PlayerState where
  sampleRate : Nat
  channels : Nat
  queue : List Chunk
  delivered : List Int
  enqueuedTotal : Nat
  paddedFrames : Nat
  status : PlaybackStatus
  deviceOpen : Bool
  deviceFailed : Bool
deriving DecidableEq, Repr

/-- Modelled from the spec: the state of a freshly constructed
`AudioPlayer(sampleRate, channels)` — `Idle` at construction (spec §3),
queue empty, nothing enqueued or delivered, device session closed. -/
def initPlayer (sampleRate channels : Nat) : PlayerState :=
  { sampleRate := sampleRate
    channels := channels
    queue := []
    delivered := []
    enqueuedTotal := 0
    paddedFrames := 0
    status := .idle
    deviceOpen := false
    deviceFailed := false }

/-- Modelled from the spec: `queueAudio` (spec §4.3) — validates the chunk's
sample rate and channel count against the session; on mismatch it fails
synchronously with `InvalidFormat` and the state is untouched; otherwise it
opens the device session if needed, appends the chunk to the queue tail,
bumps the enqueued-sample total and moves the state toward `Playing`. -/
def queueAudio (c : Chunk) (s : PlayerState) : Except EngineError PlayerState :=
  if c.sampleRate = s.sampleRate ∧ c.channels = s.channels then
    .ok { s with
      queue := s.queue ++ [c]
      enqueuedTotal := s.enqueuedTotal + c.samples.length
      status := .playing
      deviceOpen := true }
  else
    .error .invalidFormat

/-- Modelled from the spec: one iteration of the `PlaybackWorker` (spec
§4.2) serving a device request of `frame` samples: it takes up to `frame`
samples from the head chunk, carrying the remainder across calls; when the
queue is starved it emits one frame of silence (counted in `paddedFrames`,
not in `delivered`) and, the queue being empty with nothing left unflushed
in this instantaneous-device model, settles to `Idle`. -/
def workerStep (frame : Nat) (s : PlayerState) : PlayerState :=
  match s.queue with
  | [] =>
      { s with status := .idle, paddedFrames := s.paddedFrames + frame }
  | c :: rest =>
      let taken := c.samples.take frame
      let rem := c.samples.drop frame
      { s with
        delivered := s.delivered ++ taken
        queue := if rem = [] then rest else { c with samples := rem } :: rest
        status := .playing }

/-- Modelled from the spec: `stop` (spec §4.3, §7) — idempotent, never
raises; it clears the `PlaybackQueue`, closes the device session
synchronously and resets the state to `Idle`, succeeding even when the
device is in a failed state.  The `Except` return type records that the
operation is fallible in principle at the Python surface; the proof
obligation for the spec's "never raises" is that the result is always
`.ok`. -/
def stop (s : PlayerState) : Except EngineError PlayerState :=
  .ok { s with
    queue := []
    status := .idle
    deviceOpen := false
    deviceFailed := false }

/-- Modelled from the spec: `waitForDrain` (spec §4.3) unblocks exactly when
the player state reaches `Idle`; `waitForDrain s = true` says a caller
blocked in `waitForDrain` may return with success in state `s`. -/
def waitForDrain (s : PlayerState) : Bool :=
  s.status = .idle

/-- The operations a client or the worker can apply to the player. -/
inductive EngineOp where
  | queueOp (c : Chunk)
  | stepOp (frame : Nat)
  | stopOp
deriving DecidableEq, Repr

/-- Apply one operation to the player state.  A `queueAudio` call that is
rejected with `InvalidFormat` raises in Python and leaves the player state
unchanged. -/
def applyOp (s : PlayerState) : EngineOp → PlayerState
  | .queueOp c =>
      match queueAudio c s with
      | .ok s' => s'
      | .error _ => s
  | .stepOp frame => workerStep frame s
  | .stopOp =>
      match stop s with
      | .ok s' => s'
      | .error _ => s

/-- Run a list of operations left to right. -/
def runOps (s : PlayerState) : List EngineOp → PlayerState
  | [] => s
  | op :: rest => runOps (applyOp s op) rest

/-- Enqueue a list of chunks in order with `queueAudio`, failing on the
first rejected chunk. -/
def queueAll (cs : List Chunk) (s : PlayerState) : Except EngineError PlayerState :=
  match cs with
  | [] => .ok s
  | c :: rest => (queueAudio c s).bind (queueAll rest)

/-- Iterate the worker `n` times with frame size `frame`. -/
def drainSteps (frame : Nat) : Nat → PlayerState → PlayerState
  | 0, s => s
  | n + 1, s => drainSteps frame n (workerStep frame s)

/-- The number of enqueued samples still sitting in the queue. -/
def queuedSamples (s : PlayerState) : Nat :=
  (s.queue.map (fun c => c.samples.length)).sum

/-- The full enqueued-sample stream: what has been delivered so far followed
by what is still queued, in order. -/
def totalStream (s : PlayerState) : List Int :=
  s.delivered ++ (s.queue.map Chunk.samples).flatten

/-! ## `server.py` — shallow embedding -/

/-- An HTTP response as produced by the FastAPI handlers: either a normal
JSON body or a `JSONResponse` carrying an error status code. -/
inductive ApiResp where
  | ok (body : String)
  | err (code : Nat) (msg : String)
deriving DecidableEq, Repr

/-- A Python exception value.  `importError` is Python's `ImportError`;
`exc` is any other `Exception` subclass.  (`BaseException`s that are not
`Exception`s — `KeyboardInterrupt`, `SystemExit` — are asynchronous control
signals outside this model.) -/
inductive PyExc where
  | importError (msg : String)
  | exc (msg : String)
deriving DecidableEq, Repr

/-- Python's `str.strip()` with no argument: remove leading and trailing
whitespace. -/
def pythonStrip (s : String) : String :=
  ⟨((s.data.dropWhile Char.isWhitespace).reverse.dropWhile Char.isWhitespace).reverse⟩

/-- The observable outcome of one `/tts` request handled by
`tts_endpoint` (server.py:54-140): the HTTP response, whether
`tts_model.generate` was invoked, and the `(data, samplerate)` argument pair
passed to `sf.write` if the handler reached the write. -/
structure TtsOutcome where
  response : ApiResp
  generateInvoked : Bool
  sfWriteCall : Option (List Int × Nat)
deriving DecidableEq, Repr

/-- `tts_endpoint` (server.py:54-140).  `text` and `speed` are the form
fields; `segments` is the list of per-segment sample arrays that
`tts_model.generate` yields, in generation order; `filename` is the
uuid-derived file name.  `speed` arrives as a Python float already, so the
`float(speed)` call cannot raise and its `ValueError` branch
(server.py:75-76) is dead; `speed` is embedded as an exact rational, which
agrees with IEEE comparison against the exactly representable bounds 0.5
(written `mkRat 1 2`) and 2.0.  `segments` plays the role of the
`audio_arrays` list, collected in generation order (server.py:100-102).
The filesystem re-checks after a successful `sf.write` (server.py:117-132)
are outside the model: `sfWriteCall` records what was handed to
`sf.write`. -/
def tts_endpoint (text : String) (speed : ℚ) (segments : List (List Int))
    (filename : String) : TtsOutcome :=
  if pythonStrip text = "" then
    { response := .err 400 "Text is empty", generateInvoked := false, sfWriteCall := none }
  else if speed < mkRat 1 2 ∨ (2 : ℚ) < speed then
    { response := .err 400 "Speed must be between 0.5 and 2.0"
      generateInvoked := false, sfWriteCall := none }
  else if segments.isEmpty then
    { response := .err 500 "No audio generated", generateInvoked := true, sfWriteCall := none }
  else
    { response := .ok filename
      generateInvoked := true
      sfWriteCall := some (segments.flatten, 24000) }

/-- The audio array read by `sf.read` in `play_audio` (server.py:277):
either a 1-dimensional mono array, or a 2-dimensional array of `channels`
samples per frame (soundfile returns 2-d data channel-last). -/
inductive AudioData where
  | mono (samples : List ℚ)
  | multi (channels : Nat) (frames : List (List ℚ))
deriving DecidableEq, Repr

/-- The arithmetic mean of one frame's channel samples, `numpy.mean` over
`axis=1` applied to a single row. -/
def rowMean (xs : List ℚ) : ℚ :=
  xs.sum / (xs.length : ℚ)

/-- The stereo-to-mono conversion in `play_audio` (server.py:279-281):
`if len(audio_data.shape) > 1 and audio_data.shape[1] > 1:
audio_data = audio_data.mean(axis=1)`.  The returned value is exactly the
array then passed to `audio_player.queue_audio` (server.py:284). -/
def play_audio_downmix : AudioData → AudioData
  | .mono samples => .mono samples
  | .multi channels frames =>
      if 1 < channels then .mono (frames.map rowMean) else .multi channels frames

/-- `stop_audio`, the `/stop` handler (server.py:293-309): 500 when the
player singleton is uninitialized; otherwise `audio_player.stop()` inside a
`try`, answering `{"status": "stopped"}` on success and a 500
`"Failed to stop audio"` response from the `except` clause if `stop`
raised. -/
def stop_audio (player : Option PlayerState) : ApiResp :=
  match player with
  | none => .err 500 "Audio player not initialized"
  | some p =>
      match stop p with
      | .ok _ => .ok "stopped"
      | .error _ => .err 500 "Failed to stop audio"

/-- The module-level mutable server state of server.py: the two process-wide
singletons `tts_model` (line 44) and `audio_player` (line 45), plus the
`OUTPUT_FOLDER` path (line 49).  Model and player handles are opaque
numeric identities. -/
structure ServerState where
  tts_model : Option Nat
  audio_player : Option Nat
  output_folder : String
deriving DecidableEq, Repr

/-- The environment a `setup_server` call runs against: whether the output
folder is writable, whether the `/tmp` fallback can be created, and the
outcomes of `load_model(MODEL_PATH)` and `AudioPlayer()`. -/
structure SetupEnv where
  outputDirWritable : Bool
  fallbackOk : Bool
  loadModel : Except PyExc Nat
  initPlayer : Except PyExc Nat
deriving Repr

/-- `setup_server` (server.py:347-401).  The output-folder block
(lines 351-370) swallows all errors, possibly switching `OUTPUT_FOLDER` to
the `/tmp` fallback.  The model is loaded only `if tts_model is None`
(line 373) and a load failure is re-raised (line 380).  The player is
created only `if audio_player is None` (line 383) and a failure there is
only logged (lines 388-389).  The static mount block (391-401) touches no
module state and is omitted. -/
def setup_server (env : SetupEnv) (s : ServerState) : Except PyExc ServerState :=
  let folder :=
    if env.outputDirWritable then s.output_folder
    else if env.fallbackOk then "/tmp/mlx_audio_outputs"
    else s.output_folder
  let s1 : ServerState := { s with output_folder := folder }
  let loaded : Except PyExc ServerState :=
    match s1.tts_model with
    | some _ => .ok s1
    | none =>
        match env.loadModel with
        | .ok m => .ok { s1 with tts_model := some m }
        | .error e => .error e
  match loaded with
  | .error e => .error e
  | .ok s2 =>
      .ok (match s2.audio_player with
        | some _ => s2
        | none =>
            match env.initPlayer with
            | .ok p => { s2 with audio_player := some p }
            | .error _ => s2)

/-- The shape of a Python constructor call at a given call site: how many
positional arguments and which keyword arguments are passed. -/
structure ConstructorCall where
  positionalArgs : Nat
  keywordArgs : List String
deriving DecidableEq, Repr

/-- The `AudioPlayer(...)` construction site in `setup_server`
(server.py:386): `audio_player = AudioPlayer()`. -/
def setup_server_player_call : ConstructorCall :=
  { positionalArgs := 0, keywordArgs := [] }

/-- The `AudioPlayer(...)` construction site in `generate_audio`
(generate.py:103): `player = AudioPlayer()`. -/
def generate_audio_player_call : ConstructorCall :=
  { positionalArgs := 0, keywordArgs := [] }

/-- Every `AudioPlayer` construction site in the program. -/
def audioPlayer_construction_sites : List ConstructorCall :=
  [setup_server_player_call, generate_audio_player_call]

/-! ## `generate.py` — shallow embedding -/

/-- The environment a `generate_audio` call runs against: the outcome of
`load_model(model_path=model)`, the outcome of `model_instance.generate(...)`
(the yielded per-segment sample arrays, or the exception iteration raises),
the outcome of each `sf.write` call, and the outcome of the
`AudioPlayer` queue/drain/stop playback block. -/
structure GenEnv where
  loadModel : Except PyExc Unit
  generateResults : Except PyExc (List (List Int))
  writeFile : List Int → Except PyExc Unit
  playAudio : List Int → Except PyExc Unit

/-- The per-segment loop body of `generate_audio` (generate.py:61-70) in the
`join_audio = play = False` case: each segment is written to its own file
with `sf.write`, any write failure propagating out of the loop. -/
def writeSegments (env : GenEnv) : List (List Int) → Except PyExc Unit
  | [] => .ok ()
  | seg :: rest => (env.writeFile seg).bind (fun _ => writeSegments env rest)

/-- `mx.concatenate(audio_list, axis=0)` (generate.py:97,101): raises a
`ValueError` on an empty list, otherwise concatenates the arrays in
order. -/
def concatArrays (arrays : List (List Int)) : Except PyExc (List Int) :=
  if arrays.isEmpty then .error (.exc "concatenate: no arrays")
  else .ok arrays.flatten

/-- The `try` body of `generate_audio` (generate.py:45-106): load the model,
run generation, then either collect the segments (when `join_audio` or
`play`) or write each to its own file; join-write and playback follow.
Verbose printing touches no state and is omitted. -/
def generate_audio_body (env : GenEnv) (join_audio play : Bool) :
    Except PyExc Unit :=
  (env.loadModel).bind fun _ =>
  (env.generateResults).bind fun segments =>
  let audio_list := if join_audio || play then segments else []
  (if join_audio || play then .ok () else writeSegments env segments).bind fun _ =>
  (if join_audio then (concatArrays audio_list).bind env.writeFile else .ok ()).bind fun _ =>
  (if play then (concatArrays audio_list).bind env.playAudio else .ok ())

/-- What a `generate_audio` call leaves behind: the Python return value
(always `None`; the function has no `return` statement) and, when the `try`
body raised, the caught exception — with `tracebackPrinted` recording
whether the `except Exception` clause (generate.py:112-116) printed a
traceback, as opposed to the plain-print `except ImportError` clause
(generate.py:107-111). -/
structure GenOutcome where
  returned : Option Unit
  caught : Option PyExc
  tracebackPrinted : Bool
deriving DecidableEq, Repr

/-- `generate_audio` (generate.py:11-116): the `try` body wrapped in
`except ImportError` / `except Exception` handlers, both of which print and
fall through to an implicit `return None`.  The `Except` return type is the
function's interface to its caller; an uncaught exception would surface as
`.error`. -/
def generate_audio (env : GenEnv) (join_audio play : Bool) :
    Except PyExc GenOutcome :=
  match generate_audio_body env join_audio play with
  | .ok _ =>
      .ok { returned := none, caught := none, tracebackPrinted := false }
  | .error (.importError m) =>
      .ok { returned := none, caught := some (.importError m), tracebackPrinted := false }
  | .error (.exc m) =>
      .ok { returned := none, caught := some (.exc m), tracebackPrinted := true }

/-! ## Helper lemmas -/

theorem queueAudio_ok_of_fmt (c : Chunk) (s : PlayerState)
    (h : c.sampleRate = s.sampleRate ∧ c.channels = s.channels) :
    queueAudio c s = .ok { s with
      queue := s.queue ++ [c]
      enqueuedTotal := s.enqueuedTotal + c.samples.length
      status := .playing
      deviceOpen := true } := by
  simp [queueAudio, h]

/-- Enqueuing a run of format-compatible chunks succeeds and appends them,
in order, to the tail of the queue, leaving the delivered stream and the
session format untouched. -/
theorem queueAll_ok (cs : List Chunk) (s : PlayerState)
    (h : ∀ c ∈ cs, c.sampleRate = s.sampleRate ∧ c.channels = s.channels) :
    ∃ s1, queueAll cs s = .ok s1 ∧ s1.queue = s.queue ++ cs ∧
      s1.delivered = s.delivered := by
  induction cs generalizing s with
  | nil => exact ⟨s, rfl, by simp, rfl⟩
  | cons c rest ih =>
      have hc := h c (by simp)
      obtain ⟨s1, h1, h2, h3⟩ :=
        ih { s with
              queue := s.queue ++ [c]
              enqueuedTotal := s.enqueuedTotal + c.samples.length
              status := .playing
              deviceOpen := true }
          (by intro d hd; exact h d (by simp [hd]))
      refine ⟨s1, ?_, ?_, h3⟩
      · rw [queueAll, queueAudio_ok_of_fmt c s hc]
        exact h1
      · simp [h2]

/-- One worker iteration preserves the enqueued-sample stream: delivered
samples followed by still-queued samples is invariant. -/
theorem workerStep_totalStream (frame : Nat) (s : PlayerState) :
    totalStream (workerStep frame s) = totalStream s := by
  cases hq : s.queue with
  | nil => simp [workerStep, totalStream, hq]
  | cons c rest =>
      by_cases hr : c.samples.drop frame = []
      · have hlen : c.samples.length ≤ frame := List.drop_eq_nil_iff.mp hr
        simp [workerStep, totalStream, hq, hr, List.take_of_length_le hlen]
      · simp only [workerStep, totalStream, hq, if_neg hr, List.map_cons,
          List.flatten_cons, List.append_assoc]
        rw [← List.append_assoc (c.samples.take frame) (c.samples.drop frame),
          List.take_append_drop]

/-- One worker iteration with a positive frame size strictly decreases the
measure (queued samples plus queue length) whenever the queue is
nonempty. -/
theorem workerStep_measure (frame : Nat) (hf : 0 < frame) (s : PlayerState)
    (hq : s.queue ≠ []) :
    queuedSamples (workerStep frame s) + (workerStep frame s).queue.length <
      queuedSamples s + s.queue.length := by
  cases hq2 : s.queue with
  | nil => exact absurd hq2 hq
  | cons c rest =>
      by_cases hr : c.samples.drop frame = []
      · simp [workerStep, queuedSamples, hq2, hr]
        omega
      · have hlen : frame < c.samples.length := by
          by_contra hcon
          exact hr (List.drop_eq_nil_iff.mpr (by omega))
        simp [workerStep, queuedSamples, hq2, hr]
        omega

/-- Iterating the worker long enough empties the queue and delivers exactly
the enqueued-sample stream. -/
theorem drain_exists_aux (frame : Nat) (hf : 0 < frame) :
    ∀ μ s, queuedSamples s + s.queue.length ≤ μ →
      ∃ n, (drainSteps frame n s).queue = [] ∧
        (drainSteps frame n s).delivered = totalStream s := by
  intro μ
  induction μ with
  | zero =>
      intro s hs
      have hq : s.queue = [] := by
        cases h : s.queue with
        | nil => rfl
        | cons c rest => rw [h] at hs; simp at hs
      exact ⟨0, hq, by simp [drainSteps, totalStream, hq]⟩
  | succ k ih =>
      intro s hs
      by_cases hq : s.queue = []
      · exact ⟨0, hq, by simp [drainSteps, totalStream, hq]⟩
      · have hm := workerStep_measure frame hf s hq
        obtain ⟨n, h1, h2⟩ := ih (workerStep frame s) (by omega)
        exact ⟨n + 1, h1, by
          rw [show drainSteps frame (n + 1) s = drainSteps frame n (workerStep frame s) from rfl,
            h2, workerStep_totalStream]⟩

theorem drain_exists (frame : Nat) (hf : 0 < frame) (s : PlayerState) :
    ∃ n, (drainSteps frame n s).queue = [] ∧
      (drainSteps frame n s).delivered = totalStream s :=
  drain_exists_aux frame hf (queuedSamples s + s.queue.length) s le_rfl

/-- The engine invariant behind drain correctness: the enqueued-sample total
equals delivered samples plus still-queued samples, and `Idle` states have
an empty queue. -/
def EngineInv (s : PlayerState) : Prop :=
  s.enqueuedTotal = s.delivered.length + queuedSamples s ∧
  (s.status = .idle → s.queue = [])

theorem applyOp_inv (s : PlayerState) (op : EngineOp) (hop : op ≠ .stopOp)
    (h : EngineInv s) : EngineInv (applyOp s op) := by
  obtain ⟨h1, h2⟩ := h
  cases op with
  | stopOp => exact absurd rfl hop
  | queueOp c =>
      by_cases hc : c.sampleRate = s.sampleRate ∧ c.channels = s.channels
      · constructor
        · simp [applyOp, queueAudio, hc, queuedSamples, h1]
          omega
        · intro hid
          simp [applyOp, queueAudio, hc] at hid
      · constructor
        · simpa [applyOp, queueAudio, hc] using h1
        · simpa [applyOp, queueAudio, hc] using h2
  | stepOp frame =>
      rcases s with ⟨sr, ch, queue, delivered, enq, pad, st, dev, df⟩
      cases queue with
      | nil =>
          constructor
          · simpa [applyOp, workerStep, queuedSamples] using h1
          · intro _
            simp [applyOp, workerStep]
      | cons c rest =>
          simp only [queuedSamples, List.map_cons, List.sum_cons] at h1
          by_cases hr : c.samples.drop frame = []
          · have hlen : c.samples.length ≤ frame := List.drop_eq_nil_iff.mp hr
            constructor
            · simp [applyOp, workerStep, hr, queuedSamples, List.length_take]
              omega
            · intro hid
              simp [applyOp, workerStep, hr] at hid
          · have hlen : frame < c.samples.length := by
              by_contra hcon
              exact hr (List.drop_eq_nil_iff.mpr (by omega))
            constructor
            · simp [applyOp, workerStep, hr, queuedSamples, List.length_take,
                List.length_drop]
              omega
            · intro hid
              simp [applyOp, workerStep, hr] at hid

theorem runOps_inv (ops : List EngineOp) (s : PlayerState)
    (hops : ∀ op ∈ ops, op ≠ .stopOp) (h : EngineInv s) :
    EngineInv (runOps s ops) := by
  induction ops generalizing s with
  | nil => exact h
  | cons op rest ih =>
      exact ih (applyOp s op)
        (fun o ho => hops o (by simp [ho]))
        (applyOp_inv s op (hops op (by simp)) h)

/-! ## Claim theorems -/

/-- C1: for any ordered sequence of `queueAudio` calls from a single thread
with chunks C1..Cn, all format-compatible with the session and with no
intervening `stop`, draining the player delivers to the device exactly the
concatenation of the chunks' samples, in order — no reordering, duplication
or silent drops. -/
theorem fifo_delivers_concatenation (cs : List Chunk) (sr ch frame : Nat)
    (hfmt : ∀ c ∈ cs, c.sampleRate = sr ∧ c.channels = ch)
    (hf : 0 < frame) :
    ∃ s1, queueAll cs (initPlayer sr ch) = .ok s1 ∧
      ∃ n, (drainSteps frame n s1).delivered = (cs.map Chunk.samples).flatten ∧
        (drainSteps frame n s1).queue = [] := by
  obtain ⟨s1, hq, hqueue, hdel⟩ := queueAll_ok cs (initPlayer sr ch)
    (by intro c hc; simpa [initPlayer] using hfmt c hc)
  obtain ⟨n, h1, h2⟩ := drain_exists frame hf s1
  refine ⟨s1, hq, n, ?_, h1⟩
  rw [h2]
  simp [totalStream, hqueue, hdel, initPlayer]

theorem fifo_delivers_concatenation_witness :
    (∀ c ∈ ([⟨[1, 2, 3], 24000, 1⟩, ⟨[4, 5], 24000, 1⟩] : List Chunk),
        c.sampleRate = 24000 ∧ c.channels = 1) ∧ 0 < 2 ∧
    ∃ s1, queueAll [⟨[1, 2, 3], 24000, 1⟩, ⟨[4, 5], 24000, 1⟩]
        (initPlayer 24000 1) = .ok s1 ∧
      ∃ n, (drainSteps 2 n s1).delivered =
          (([⟨[1, 2, 3], 24000, 1⟩, ⟨[4, 5], 24000, 1⟩] : List Chunk).map
            Chunk.samples).flatten ∧
        (drainSteps 2 n s1).queue = [] :=
  ⟨by decide, by decide,
    fifo_delivers_concatenation [⟨[1, 2, 3], 24000, 1⟩, ⟨[4, 5], 24000, 1⟩]
      24000 1 2 (by decide) (by decide)⟩

/-- C2: in a session that ends by natural completion (no `stop` among the
operations), whenever `waitForDrain` can return with success the number of
samples delivered to the device equals the number of samples enqueued, and
no enqueued, unplayed sample remains in the queue. -/
theorem waitForDrain_returns_only_when_drained (ops : List EngineOp) (sr ch : Nat)
    (hops : ∀ op ∈ ops, op ≠ .stopOp)
    (hdrain : waitForDrain (runOps (initPlayer sr ch) ops) = true) :
    (runOps (initPlayer sr ch) ops).delivered.length =
      (runOps (initPlayer sr ch) ops).enqueuedTotal ∧
    queuedSamples (runOps (initPlayer sr ch) ops) = 0 := by
  have hinv : EngineInv (runOps (initPlayer sr ch) ops) :=
    runOps_inv ops (initPlayer sr ch) hops
      (by constructor
          · simp [initPlayer, queuedSamples]
          · intro _; simp [initPlayer])
  obtain ⟨h1, h2⟩ := hinv
  have hidle : (runOps (initPlayer sr ch) ops).status = .idle := by
    simpa [waitForDrain] using hdrain
  have hq : (runOps (initPlayer sr ch) ops).queue = [] := h2 hidle
  have hz : queuedSamples (runOps (initPlayer sr ch) ops) = 0 := by
    simp [queuedSamples, hq]
  exact ⟨by omega, hz⟩

theorem waitForDrain_returns_only_when_drained_witness :
    (∀ op ∈ ([.queueOp ⟨[7, 8, 9], 24000, 1⟩, .stepOp 4, .stepOp 4] :
        List EngineOp), op ≠ EngineOp.stopOp) ∧
    waitForDrain (runOps (initPlayer 24000 1)
      [.queueOp ⟨[7, 8, 9], 24000, 1⟩, .stepOp 4, .stepOp 4]) = true ∧
    (runOps (initPlayer 24000 1)
        [.queueOp ⟨[7, 8, 9], 24000, 1⟩, .stepOp 4, .stepOp 4]).delivered.length =
      (runOps (initPlayer 24000 1)
        [.queueOp ⟨[7, 8, 9], 24000, 1⟩, .stepOp 4, .stepOp 4]).enqueuedTotal :=
  ⟨by decide, by decide,
    (waitForDrain_returns_only_when_drained
      [.queueOp ⟨[7, 8, 9], 24000, 1⟩, .stepOp 4, .stepOp 4] 24000 1
      (by decide) (by decide)).1⟩

/-- C3: a `queueAudio` call whose chunk disagrees with the active session's
sample rate or channel count fails synchronously with `InvalidFormat`, the
chunk is rejected, and the player state — in particular the already-queued
chunks' ordering and content — is left unchanged. -/
theorem queueAudio_rejects_mismatched_format (c : Chunk) (s : PlayerState)
    (_hactive : s.status = .playing)
    (hmis : ¬(c.sampleRate = s.sampleRate ∧ c.channels = s.channels)) :
    queueAudio c s = .error .invalidFormat ∧
    applyOp s (.queueOp c) = s := by
  constructor
  · simp [queueAudio, hmis]
  · simp [applyOp, queueAudio, hmis]

theorem queueAudio_rejects_mismatched_format_witness :
    (({ sampleRate := 24000, channels := 1,
        queue := [⟨[1, 2], 24000, 1⟩], delivered := [], enqueuedTotal := 2,
        paddedFrames := 0, status := .playing, deviceOpen := true,
        deviceFailed := false } : PlayerState).status = .playing ∧
      ¬((⟨[9], 16000, 1⟩ : Chunk).sampleRate = 24000 ∧
        (⟨[9], 16000, 1⟩ : Chunk).channels = 1)) ∧
    queueAudio ⟨[9], 16000, 1⟩
      { sampleRate := 24000, channels := 1,
        queue := [⟨[1, 2], 24000, 1⟩], delivered := [], enqueuedTotal := 2,
        paddedFrames := 0, status := .playing, deviceOpen := true,
        deviceFailed := false } = .error .invalidFormat :=
  ⟨⟨by decide, by decide⟩,
    (queueAudio_rejects_mismatched_format ⟨[9], 16000, 1⟩
      { sampleRate := 24000, channels := 1,
        queue := [⟨[1, 2], 24000, 1⟩], delivered := [], enqueuedTotal := 2,
        paddedFrames := 0, status := .playing, deviceOpen := true,
        deviceFailed := false } (by decide) (by decide)).1⟩

/-- C4: `stop` never raises — on every player state, including states with a
failed device, it returns `.ok` with the queue cleared and the device
session released; on an idle player it is a no-op; consequently the `/stop`
handler's `except` clause is unreachable and `stop_audio` on any
initialized player answers the success response, never the 500 from the
`except` clause. -/
theorem stop_never_raises (p : PlayerState) :
    (∃ q, stop p = .ok q ∧ q.queue = [] ∧ q.deviceOpen = false) ∧
    (p.status = .idle → p.queue = [] → p.deviceOpen = false →
      p.deviceFailed = false → stop p = .ok p) ∧
    stop_audio (some p) = .ok "stopped" := by
  refine ⟨⟨_, rfl, rfl, rfl⟩, ?_, rfl⟩
  intro h1 h2 h3 h4
  cases p
  simp_all [stop]

theorem stop_never_raises_witness :
    ((initPlayer 24000 1).status = .idle ∧ (initPlayer 24000 1).queue = [] ∧
      (initPlayer 24000 1).deviceOpen = false ∧
      (initPlayer 24000 1).deviceFailed = false) ∧
    stop (initPlayer 24000 1) = .ok (initPlayer 24000 1) ∧
    stop_audio (some (initPlayer 24000 1)) = .ok "stopped" :=
  ⟨⟨rfl, rfl, rfl, rfl⟩,
    (stop_never_raises (initPlayer 24000 1)).2.1 rfl rfl rfl rfl,
    (stop_never_raises (initPlayer 24000 1)).2.2⟩

/-- C5: every `/tts` request that passes validation and yields at least one
synthesized segment hands `sf.write` exactly the concatenation of the
segments' sample arrays in generation order, at the fixed sample rate
24000 Hz, whatever the request's text, speed or segment contents. -/
theorem tts_persists_concatenation_at_24000 (text : String) (speed : ℚ)
    (segments : List (List Int)) (filename : String)
    (htext : ¬pythonStrip text = "")
    (hspeed : ¬(speed < mkRat 1 2 ∨ (2 : ℚ) < speed))
    (hseg : segments ≠ []) :
    (tts_endpoint text speed segments filename).sfWriteCall =
      some (segments.flatten, 24000) ∧
    (tts_endpoint text speed segments filename).response = .ok filename := by
  have hne : ¬segments.isEmpty = true := by
    simpa [List.isEmpty_iff] using hseg
  unfold tts_endpoint
  rw [if_neg htext, if_neg hspeed, if_neg hne]
  exact ⟨rfl, rfl⟩

theorem tts_persists_concatenation_at_24000_witness :
    (¬(pythonStrip "hello" = "") ∧ ¬((1 : ℚ) < mkRat 1 2 ∨ (2 : ℚ) < 1) ∧
      ([[1, 2], [3]] : List (List Int)) ≠ []) ∧
    (tts_endpoint "hello" 1 [[1, 2], [3]] "f.wav").sfWriteCall =
      some (([[1, 2], [3]] : List (List Int)).flatten, 24000) :=
  ⟨⟨by decide, by decide, by decide⟩,
    (tts_persists_concatenation_at_24000 "hello" 1 [[1, 2], [3]] "f.wav"
      (by decide) (by decide) (by decide)).1⟩

/-- C6 counterexample: the claim that every `AudioPlayer` construction site
passes a sample rate and a channel count (two arguments) is false — both
sites in the program pass no arguments at all. -/
theorem audioPlayer_ctor_args_counterexample :
    ¬(∀ call ∈ audioPlayer_construction_sites,
        2 ≤ call.positionalArgs + call.keywordArgs.length) := by
  decide

/-- C6 amended: every `AudioPlayer` construction site in the program
(server.py:386 and generate.py:103) calls `AudioPlayer()` with no positional
and no keyword arguments; the sample rate and channel count of the spec's
`AudioPlayer(sampleRate, channels)` interface are never supplied by the
collaborators. -/
theorem audioPlayer_ctor_sites_pass_no_args :
    audioPlayer_construction_sites.all
      (fun call => call.positionalArgs == 0 && call.keywordArgs.isEmpty) = true := by
  decide

/-- C7: the server keeps one process-wide model and one process-wide player
(the `tts_model` / `audio_player` module globals), and `setup_server`
initializes each only when it is unset: a singleton already set survives any
call unchanged, and rerunning `setup_server` after a successful call returns
the same state — it is idempotent with respect to those globals. -/
theorem setup_server_idempotent (env : SetupEnv) (s s1 : ServerState)
    (h : setup_server env s = .ok s1) :
    setup_server env s1 = .ok s1 ∧
    (∀ m, s.tts_model = some m → s1.tts_model = some m) ∧
    (∀ p, s.audio_player = some p → s1.audio_player = some p) := by
  rcases env with ⟨w, fb, lm, ip⟩
  rcases s with ⟨tm, ap, folder⟩
  cases w <;> cases fb <;> cases tm <;> cases ap <;> cases lm <;> cases ip <;>
    simp_all [setup_server] <;> (try subst h) <;> simp_all [setup_server]

theorem setup_server_idempotent_witness :
    setup_server ⟨true, true, .ok 1, .ok 2⟩ ⟨none, none, "out"⟩ =
      .ok ⟨some 1, some 2, "out"⟩ ∧
    setup_server ⟨true, true, .ok 1, .ok 2⟩ ⟨some 1, some 2, "out"⟩ =
      .ok ⟨some 1, some 2, "out"⟩ :=
  ⟨rfl,
    (setup_server_idempotent ⟨true, true, .ok 1, .ok 2⟩ ⟨none, none, "out"⟩
      ⟨some 1, some 2, "out"⟩ rfl).1⟩

/-- C8: when the audio file read by the `/play` endpoint has more than one
channel, `play_audio` down-mixes it to mono by taking the per-frame mean
across channels, so the array handed to `queue_audio` is single-channel. -/
theorem play_audio_downmixes_to_mono (channels : Nat) (frames : List (List ℚ))
    (h : 1 < channels) :
    play_audio_downmix (.multi channels frames) = .mono (frames.map rowMean) := by
  simp [play_audio_downmix, h]

theorem play_audio_downmixes_to_mono_witness :
    1 < 2 ∧
    play_audio_downmix (.multi 2 [[1, 3], [2, 4]]) =
      .mono (([[1, 3], [2, 4]] : List (List ℚ)).map rowMean) :=
  ⟨by decide, play_audio_downmixes_to_mono 2 [[1, 3], [2, 4]] (by decide)⟩

/-- C9: a `/tts` request whose text is empty or whitespace-only, or whose
speed lies outside the inclusive range [0.5, 2.0], is answered with a 400
error response without invoking `tts_model.generate` and without any call
to `sf.write`. -/
theorem tts_rejects_invalid_request (text : String) (speed : ℚ)
    (segments : List (List Int)) (filename : String)
    (h : pythonStrip text = "" ∨ speed < mkRat 1 2 ∨ (2 : ℚ) < speed) :
    (∃ msg, (tts_endpoint text speed segments filename).response = .err 400 msg) ∧
    (tts_endpoint text speed segments filename).generateInvoked = false ∧
    (tts_endpoint text speed segments filename).sfWriteCall = none := by
  by_cases ht : pythonStrip text = ""
  · unfold tts_endpoint
    rw [if_pos ht]
    exact ⟨⟨_, rfl⟩, rfl, rfl⟩
  · rcases h with h | h
    · exact absurd h ht
    · unfold tts_endpoint
      rw [if_neg ht, if_pos h]
      exact ⟨⟨_, rfl⟩, rfl, rfl⟩

theorem tts_rejects_invalid_request_witness :
    (pythonStrip "   " = "" ∨ (1 : ℚ) < mkRat 1 2 ∨ (2 : ℚ) < 1) ∧
    ((∃ msg, (tts_endpoint "   " 1 [[5]] "f.wav").response = .err 400 msg) ∧
      (tts_endpoint "   " 1 [[5]] "f.wav").generateInvoked = false ∧
      (tts_endpoint "   " 1 [[5]] "f.wav").sfWriteCall = none) :=
  ⟨Or.inl (by decide),
    tts_rejects_invalid_request "   " 1 [[5]] "f.wav" (Or.inl (by decide))⟩

/-- C10: `generate_audio` never propagates an exception to its caller —
whatever the outcomes of model loading, generation, file writing and
playback, the `try`/`except` wrapper absorbs any raised exception and the
function returns `None` (with a traceback printed exactly when the caught
exception is not an `ImportError`). -/
theorem generate_audio_never_raises (env : GenEnv) (join_audio play : Bool) :
    ∃ o, generate_audio env join_audio play = .ok o ∧ o.returned = none ∧
      (o.tracebackPrinted = true ↔
        ∃ m, generate_audio_body env join_audio play = .error (.exc m)) := by
  unfold generate_audio
  cases h : generate_audio_body env join_audio play with
  | ok u => exact ⟨_, rfl, rfl, by simp [h]⟩
  | error e =>
      cases e with
      | importError m => exact ⟨_, rfl, rfl, by simp [h]⟩
      | exc m => exact ⟨_, rfl, rfl, by simp [h]⟩

theorem generate_audio_never_raises_witness :
    ∃ o, generate_audio
        ⟨.error (.exc "model load failed"), .ok [[1]],
          fun _ => .ok (), fun _ => .ok ()⟩ false false = .ok o ∧
      o.returned = none ∧
      (o.tracebackPrinted = true ↔
        ∃ m, generate_audio_body
          ⟨.error (.exc "model load failed"), .ok [[1]],
            fun _ => .ok (), fun _ => .ok ()⟩ false false = .error (.exc m)) :=
  generate_audio_never_raises
    ⟨.error (.exc "model load failed"), .ok [[1]],
      fun _ => .ok (), fun _ => .ok ()⟩ false false

end MlxAudio

